import Mathlib

/-!
Shallow embedding of `user_creation.py` (BMC read-only account provisioning).

Python exceptions are modelled by the inductive `PyErr`; observable actions
(session login, network reads and writes, printed report lines, logout) are
recorded in an event log.  A computation is a function from the log so far to
an `Except PyErr` result paired with the extended log, so events emitted
before an exception survive, exactly as Python side effects do.
-/

/-- Exceptions that `user_creation.py` can raise or catch. -/
inductive PyErr where
  /-- `ValueError` raised by the per-machine YAML field validation. -/
  | valueError (machine : String)
  /-- `KeyError` on a missing dictionary key. -/
  | keyError (key : String)
  /-- `UnboundLocalError` on a local variable read before assignment. -/
  | unboundLocal (var : String)
  /-- `IndexError` on an out-of-range sequence index. -/
  | indexError
  /-- `ValueError` raised by `int()` on a non-digit string. -/
  | intValueError
  /-- `redfish.rest.v1.ServerDownOrUnreachableError`. -/
  | serverDown
  /-- `redfish.rest.v1.RetriesExhaustedError`. -/
  | retriesExhausted
  /-- `redfish.rest.v1.InvalidCredentialsError`. -/
  | invalidCredentials
  /-- `redfish.rest.v1.SessionCreationError`. -/
  | sessionCreation
deriving DecidableEq, Repr

/-- The `Oem.Hp` vendor-extension block built for pre-v5 iLO machines. -/
structure HpOem where
  loginPriv : Bool
  loginName : String
deriving DecidableEq, Repr

/-- A request body: the Python dict assembled before a POST or PATCH, with
one optional field per key the script ever stores. -/
structure Body where
  userName : Option String := none
  password : Option String := none
  enabled : Option Bool := none
  roleId : Option String := none
  oem : Option HpOem := none
deriving DecidableEq, Repr

/-- Report lines printed by the script, identified structurally. -/
inductive Line where
  /-- `FAILED: {machine} is down or unreachable.` -/
  | downOrUnreachable (machine : String)
  /-- `FAILED: Cannot connect to {machine}` -/
  | cannotConnect (machine : String)
  /-- `FAILED: Invalid Credentials for {machine}` -/
  | invalidCreds (machine : String)
  /-- `FAILED: Failed to create the session for {machine}` -/
  | sessionFailed (machine : String)
  /-- `FAILED: ... NOT created due to a KeyError ...` (the create handler in main). -/
  | keyErrorLine (machine : String) (key : String)
  /-- `FAILED: Cannot find roles for {machine}` -/
  | rolesNotFound (machine : String)
  /-- `FAILED: User doesnt exist` (generic modify lookup). -/
  | userNotFound
  /-- `FAILED: User doesnt exist for {base_url}` (Dell modify lookup). -/
  | dellUserNotFound (machine : String)
  /-- `FAILED: ... NOT created due to an error: ...` (response interpreter). -/
  | responseFailed (machine : String) (user : String)
  /-- `The ... account for {machine} was created and/or modified successfully.` -/
  | successLine (machine : String) (user : String)
deriving DecidableEq, Repr

/-- Observable events of one run. -/
inductive Event where
  /-- A redfish session was opened (client built and `login` succeeded). -/
  | sessionOpen (machine : String)
  /-- A GET request. -/
  | netGet (url : String)
  /-- A POST request with its body. -/
  | netPost (url : String) (body : Body)
  /-- A PATCH request with its body. -/
  | netPatch (url : String) (body : Body)
  /-- `redfish_obj.logout()`. -/
  | logout (machine : String)
  /-- A printed report line. -/
  | printLine (line : Line)
deriving DecidableEq, Repr

/-- A computation: given the log so far, produce a result or an uncaught
exception, together with the extended log. -/
def M (α : Type) : Type := List Event → Except PyErr α × List Event

/-- Return a value, leaving the log unchanged. -/
def pureM {α : Type} (a : α) : M α := fun log => (Except.ok a, log)

/-- Sequence two computations; an exception in the first skips the second. -/
def bindM {α β : Type} (m : M α) (f : α → M β) : M β := fun log =>
  match m log with
  | (Except.ok a, log2) => f a log2
  | (Except.error e, log2) => (Except.error e, log2)

/-- Raise an exception. -/
def throwM {α : Type} (e : PyErr) : M α := fun log => (Except.error e, log)

/-- Append one event to the log. -/
def emit (ev : Event) : M Unit := fun log => (Except.ok (), log ++ [ev])

/-- `try`/`except`: run `m`; on an exception run the handler on it. -/
def tryCatchM {α : Type} (m : M α) (h : PyErr → M α) : M α := fun log =>
  match m log with
  | (Except.ok a, log2) => (Except.ok a, log2)
  | (Except.error e, log2) => h e log2

/-- Case-insensitive-ready substring test: Python `pat in s`. -/
def strContains (s pat : String) : Bool := decide (pat.toList <:+: s.toList)

/-- ASCII lowercase of one character (the fragment of Python `str.lower`
the manufacturer and role strings exercise). -/
def lowerChar (c : Char) : Char :=
  if 65 ≤ c.toNat ∧ c.toNat ≤ 90 then Char.ofNat (c.toNat + 32) else c

/-- Python `s.lower()` over the characters of the string. -/
def lowerStr (s : String) : String := String.mk (s.toList.map lowerChar)

/-- Python `s[s.rfind("/") + 1 :]`: the suffix after the last slash, the
whole string when no slash occurs. -/
def afterLastSlash (s : String) : String :=
  String.mk ((s.toList.reverse.takeWhile (fun c => c ≠ '/')).reverse)

/-- Credential entry of one machine from the YAML descriptor; `none` models a
missing subfield. -/
structure Entry where
  admin_user : Option String := none
  admin_password : Option String := none
  new_user : Option String := none
  new_password : Option String := none
deriving DecidableEq, Repr

/-- Entry validation test of `main` (lines 34 to 39): some required
subfield is missing. -/
def entryInvalid (e : Entry) : Bool :=
  e.admin_user.isNone || e.admin_password.isNone ||
    e.new_user.isNone || e.new_password.isNone

/-- A Dell account slot as read from one member of the iDRAC accounts
collection: its link, its `UserName` and its `Id`. -/
structure Slot where
  odataId : String
  userName : String
  slotId : String
deriving DecidableEq, Repr

/-- A generic account member: its link, its `UserName` and its `Id`. -/
structure Account where
  odataId : String
  userName : String
  accountId : String
deriving DecidableEq, Repr

/-- A write response, abstracted to the error-message list that
`redfish.messages.get_error_messages` extracts from it. -/
structure Resp where
  errorMessages : List String
deriving DecidableEq, Repr

/-- Outcome of `redfish_client` + `login` for one machine. -/
inductive LoginResult where
  | ok
  | serverDown
  | retriesExhausted
  | invalidCredentials
  | sessionCreation
deriving DecidableEq, Repr

/-- Remote state of one machine: everything the BMC would answer. `none` for a
collection models the `Members` key missing from the returned payload;
`managerFirmware = none` models a manager payload without `FirmwareVersion`. -/
structure MachineEnv where
  login : LoginResult := LoginResult.ok
  systemMembers : List String := ["/redfish/v1/Systems/1"]
  manufacturer : String := ""
  linksCap : Option String := none
  linksLow : Option String := none
  managerFirmware : Option String := none
  rolesMembers : Option (List String) := none
  accountsMembers : Option (List Account) := none
  dellMembers : Option (List Slot) := none
  writeResp : Resp := { errorMessages := [] }
deriving Repr

/-- Read a required entry subfield, raising `KeyError` when absent
(Python `info_dict[machine]["..."]`). -/
def getKey (v : Option String) (k : String) : M String :=
  match v with
  | some s => pureM s
  | none => throwM (PyErr.keyError k)

/-- Sentinel message treated as success by the response interpreter. -/
def successSentinel : String := "The request completed successfully."

/-- Failure test of `print_response_messages` (lines 318 to 321): the
extracted error-message list is non-empty and lacks the success sentinel. -/
def response_failed (msgs : List String) : Bool :=
  !msgs.isEmpty && !(msgs.contains successSentinel)

/-- Embeds `print_response_messages` (lines 308 to 332): nothing is printed
for a `None` response; otherwise one failure or one success line. -/
def print_response_messages (newAccount : Option Resp) (entry : Entry)
    (machine : String) : M Unit :=
  match newAccount with
  | none => pureM ()
  | some resp =>
      bindM (getKey entry.new_user "new_user") (fun newUser =>
        if response_failed resp.errorMessages then
          emit (Event.printLine (Line.responseFailed machine newUser))
        else
          emit (Event.printLine (Line.successLine machine newUser)))

/-- Embeds the member loop of `get_user_id` (lines 185 to 191): GET each
member, return the `Id` of the first `UserName` match; print the failure
line and return `None` when the loop finishes without a match. -/
def userScan (username : String) : List Account → M (Option String)
  | [] => bindM (emit (Event.printLine Line.userNotFound)) (fun _ => pureM none)
  | u :: rest =>
      bindM (emit (Event.netGet u.odataId)) (fun _ =>
        if u.userName = username then pureM (some u.accountId) else userScan username rest)

/-- Embeds `get_user_id` (lines 174 to 191). Indexing `Members` out of a
payload lacking it raises `KeyError`. -/
def get_user_id (env : MachineEnv) (username : String) : M (Option String) :=
  bindM (emit (Event.netGet "/redfish/v1/AccountService/Accounts")) (fun _ =>
    match env.accountsMembers with
    | none => throwM (PyErr.keyError "Members")
    | some users => userScan username users)

/-- Embeds `modify_generic_account` (lines 148 to 171): look the user up;
when found, PATCH a body carrying only the new password. -/
def modify_generic_account (entry : Entry) (env : MachineEnv) : M (Option Resp) :=
  bindM (getKey entry.new_password "new_password") (fun newPassword =>
  bindM (getKey entry.new_user "new_user") (fun username =>
  bindM (get_user_id env username) (fun userId =>
    match userId with
    | some uid =>
        bindM (emit (Event.netPatch ("/redfish/v1/AccountService/Accounts/" ++ uid)
          { password := some newPassword })) (fun _ =>
        pureM (some env.writeResp))
    | none => pureM none)))

/-- Embeds the member loop of `get_dell_user_id` (lines 270 to 275). -/
def dellUserScan (username : String) (machine : String) : List Slot → M (Option String)
  | [] => bindM (emit (Event.printLine (Line.dellUserNotFound machine))) (fun _ => pureM none)
  | u :: rest =>
      bindM (emit (Event.netGet u.odataId)) (fun _ =>
        if u.userName = username then pureM (some u.slotId) else dellUserScan username machine rest)

/-- Embeds `get_dell_user_id` (lines 258 to 276): unlike `get_user_id`, a
payload without `Members` is tested with `in` and yields `None` quietly. -/
def get_dell_user_id (env : MachineEnv) (username : String) (machine : String) :
    M (Option String) :=
  bindM (emit (Event.netGet "/redfish/v1/Managers/iDRAC.Embedded.1/Accounts/")) (fun _ =>
    match env.dellMembers with
    | none => pureM none
    | some accounts => dellUserScan username machine accounts)

/-- Embeds `modify_dell_account` (lines 233 to 255). -/
def modify_dell_account (entry : Entry) (machine : String) (env : MachineEnv) :
    M (Option Resp) :=
  bindM (getKey entry.new_password "new_password") (fun newPassword =>
  bindM (getKey entry.new_user "new_user") (fun username =>
  bindM (get_dell_user_id env username machine) (fun userId =>
    match userId with
    | some uid =>
        bindM (emit (Event.netPatch ("/redfish/v1/Managers/iDRAC.Embedded.1/Accounts/" ++ uid)
          { password := some newPassword })) (fun _ =>
        pureM (some env.writeResp))
    | none => pureM none)))

/-- Embeds `modify_accounts` (lines 86 to 103): dispatch on a
case-insensitive `dell` substring of the manufacturer. -/
def modify_accounts (env : MachineEnv) (machine : String) (entry : Entry) :
    M (Option Resp) :=
  if strContains (lowerStr env.manufacturer) "dell" then
    modify_dell_account entry machine env
  else
    modify_generic_account entry env

/-- Slot freeness test of `create_dell_account` line 297: Python
`not account_json["UserName"] and account_json["Id"] != "1"`. -/
def isFreeSlot (s : Slot) : Bool := s.userName == "" && s.slotId != "1"

/-- Embeds the slot loop of `create_dell_account` (lines 294 to 299): GET
each member until the first free slot; when the loop finishes without a
break, line 301 reads the never-assigned `available_id`, raising
`UnboundLocalError`. -/
def dellSlotScan : List Slot → M String
  | [] => throwM (PyErr.unboundLocal "available_id")
  | s :: rest =>
      bindM (emit (Event.netGet s.odataId)) (fun _ =>
        if isFreeSlot s then pureM s.slotId else dellSlotScan rest)

/-- Embeds `create_dell_account` (lines 279 to 305): force
`RoleId = "ReadOnly"`, scan for a free slot, PATCH it. A slot payload
without `Members` skips the block and returns the never-assigned
`new_account`, raising `UnboundLocalError`. -/
def create_dell_account (env : MachineEnv) (body : Body) : M Resp :=
  let body2 := { body with roleId := some "ReadOnly" }
  bindM (emit (Event.netGet "/redfish/v1/Managers/iDRAC.Embedded.1/Accounts/")) (fun _ =>
    match env.dellMembers with
    | none => throwM (PyErr.unboundLocal "new_account")
    | some accounts =>
        bindM (dellSlotScan accounts) (fun availableId =>
        bindM (emit (Event.netPatch
          ("/redfish/v1/Managers/iDRAC.Embedded.1/Accounts/" ++ availableId) body2)) (fun _ =>
        pureM env.writeResp)))

/-- Embeds the role loop of `create_accounts` (lines 133 to 136): every
member whose `@odata.id` contains `readonly` case-insensitively overwrites
`role_id`, so the last match wins; no match leaves it unassigned. -/
def roleScan : List String → Option String
  | [] => none
  | r :: rest =>
      match roleScan rest with
      | some rid => some rid
      | none => if strContains (lowerStr r) "readonly" then some (afterLastSlash r) else none

/-- Embeds the HP body assembly of `create_hp_account` (lines 208 to 226):
iLO 5 or 6 get `RoleId = "ReadOnly"`; anything else gets the `Oem.Hp`
block with `LoginPriv` and the account name as `LoginName`. -/
def hp_body (newUser newPassword : String) (iloVersion : Nat) : Body :=
  if iloVersion = 5 ∨ iloVersion = 6 then
    { userName := some newUser, password := some newPassword, roleId := some "ReadOnly" }
  else
    { userName := some newUser, password := some newPassword,
      oem := some { loginPriv := true, loginName := newUser } }

/-- Python `int(c)` on one character: its digit value, or `ValueError`. -/
def intOfDigit (c : Char) : M Nat :=
  if c.isDigit then pureM (c.toNat - 48) else throwM PyErr.intValueError

/-- Embeds `create_hp_account` (lines 194 to 230). `ilo_version` starts at 5
but when neither `Links` nor `links` is present, line 219 reads the
never-assigned `manager_url`, raising `UnboundLocalError`; a present but
empty manager URL is falsy and keeps the default. The version is
`int(FirmwareVersion[4])`. -/
def create_hp_account (entry : Entry) (env : MachineEnv) : M Resp :=
  bindM (getKey entry.new_user "new_user") (fun newUser =>
  bindM (getKey entry.new_password "new_password") (fun newPassword =>
  bindM (match env.linksCap, env.linksLow with
         | some url, _ => pureM url
         | none, some url => pureM url
         | none, none => throwM (PyErr.unboundLocal "manager_url")) (fun managerUrl =>
  bindM (if managerUrl != "" then
           bindM (emit (Event.netGet managerUrl)) (fun _ =>
             match env.managerFirmware with
             | none => throwM (PyErr.keyError "FirmwareVersion")
             | some fw =>
                 match fw.toList.get? 4 with
                 | none => throwM PyErr.indexError
                 | some c => intOfDigit c)
         else pureM 5) (fun iloVersion =>
  bindM (emit (Event.netPost "/redfish/v1/AccountService/Accounts"
    (hp_body newUser newPassword iloVersion))) (fun _ =>
  pureM env.writeResp)))))

/-- Embeds `create_accounts` (lines 106 to 145): HP first, then Dell, then
the generic path; on the generic path a role payload without `Members`
raises `KeyError`, caught to print and return `None`, while an empty role
scan leaves `role_id` unassigned and line 140 raises `UnboundLocalError`. -/
def create_accounts (env : MachineEnv) (machine : String) (entry : Entry) :
    M (Option Resp) :=
  if strContains (lowerStr env.manufacturer) "hp" then
    bindM (create_hp_account entry env) (fun r => pureM (some r))
  else
    bindM (getKey entry.new_user "new_user") (fun newUser =>
    bindM (getKey entry.new_password "new_password") (fun newPassword =>
    let body : Body := { userName := some newUser, password := some newPassword,
                         enabled := some true }
    if strContains (lowerStr env.manufacturer) "dell" then
      bindM (create_dell_account env body) (fun r => pureM (some r))
    else
      bindM (emit (Event.netGet "/redfish/v1/AccountService/Roles")) (fun _ =>
        match env.rolesMembers with
        | none =>
            bindM (emit (Event.printLine (Line.rolesNotFound machine))) (fun _ => pureM none)
        | some members =>
            match roleScan members with
            | none => throwM (PyErr.unboundLocal "role_id")
            | some roleId =>
                bindM (emit (Event.netPost "/redfish/v1/AccountService/Accounts"
                  { body with roleId := some roleId })) (fun _ =>
                pureM (some env.writeResp)))))

/-- Embeds the body of the per-machine loop of `main` (lines 32 to 83):
validate the entry, open the session (each login exception prints a line
and continues), read the system, dispatch on the modify flag. Only
`KeyError` from `create_accounts` is caught, and its handler `continue`s
past the final `redfish_obj.logout()`. -/
def processMachine (modifyFlag : Bool) (machine : String) (entry : Entry)
    (env : MachineEnv) : M Unit :=
  if entryInvalid entry then throwM (PyErr.valueError machine) else
  match env.login with
  | LoginResult.serverDown => emit (Event.printLine (Line.downOrUnreachable machine))
  | LoginResult.retriesExhausted => emit (Event.printLine (Line.cannotConnect machine))
  | LoginResult.invalidCredentials => emit (Event.printLine (Line.invalidCreds machine))
  | LoginResult.sessionCreation => emit (Event.printLine (Line.sessionFailed machine))
  | LoginResult.ok =>
      bindM (emit (Event.sessionOpen machine)) (fun _ =>
      bindM (emit (Event.netGet "/redfish/v1/Systems")) (fun _ =>
      match env.systemMembers with
      | [] => throwM PyErr.indexError
      | systemUrl :: _ =>
          bindM (emit (Event.netGet systemUrl)) (fun _ =>
          if modifyFlag then
            bindM (modify_accounts env machine entry) (fun newAccount =>
            bindM (print_response_messages newAccount entry machine) (fun _ =>
            emit (Event.logout machine)))
          else
            bindM (tryCatchM
                     (bindM (create_accounts env machine entry) (fun a => pureM (some a)))
                     (fun e =>
                       match e with
                       | PyErr.keyError k =>
                           bindM (emit (Event.printLine (Line.keyErrorLine machine k)))
                             (fun _ => pureM none)
                       | e2 => throwM e2))
                  (fun caught =>
                    match caught with
                    | none => pureM ()
                    | some newAccount =>
                        bindM (print_response_messages newAccount entry machine) (fun _ =>
                        emit (Event.logout machine))))))

/-- Embeds the `for machine in info_dict` loop of `main`: an exception
escaping one iteration aborts the whole run. The descriptor is the list of
machines in stored order, each with its entry and its remote state. -/
def mainLoop (modifyFlag : Bool) : List (String × Entry × MachineEnv) → M Unit
  | [] => pureM ()
  | (machine, entry, env) :: rest =>
      bindM (processMachine modifyFlag machine entry env) (fun _ =>
        mainLoop modifyFlag rest)

/-- Run the batch from an empty log. -/
def runBatch (modifyFlag : Bool) (fleet : List (String × Entry × MachineEnv)) :
    Except PyErr Unit × List Event :=
  mainLoop modifyFlag fleet []

/-- The printed report lines of a log, in order. -/
def printedLines (log : List Event) : List Line :=
  log.filterMap (fun ev =>
    match ev with
    | Event.printLine l => some l
    | _ => none)

/-- The write requests (POST or PATCH) of a log, in order. -/
def writeEvents (log : List Event) : List (String × Body) :=
  log.filterMap (fun ev =>
    match ev with
    | Event.netPost url body => some (url, body)
    | Event.netPatch url body => some (url, body)
    | _ => none)

/-- The machines whose session was opened, in order. -/
def sessionsOpened (log : List Event) : List String :=
  log.filterMap (fun ev =>
    match ev with
    | Event.sessionOpen m => some m
    | _ => none)

/-- The machines logged out, in order. -/
def logoutsOf (log : List Event) : List String :=
  log.filterMap (fun ev =>
    match ev with
    | Event.logout m => some m
    | _ => none)

deriving instance DecidableEq for Except

/-- Evaluate a bind by cases on the result of the first computation. -/
theorem bindM_eval {α β : Type} (m : M α) (f : α → M β) (log : List Event) :
    bindM m f log =
      match (m log).1 with
      | Except.ok a => f a (m log).2
      | Except.error e => (Except.error e, (m log).2) := by
  unfold bindM
  rcases hm : m log with ⟨r, l⟩
  cases r <;> simp [hm]

/-- Write extraction distributes over log concatenation. -/
theorem writeEvents_append (a b : List Event) :
    writeEvents (a ++ b) = writeEvents a ++ writeEvents b := by
  simp [writeEvents, List.filterMap_append]

/-- A fully populated credential entry. -/
def entryFull : Entry :=
  { admin_user := some "root", admin_password := some "rootpw",
    new_user := some "newu", new_password := some "newp" }

/-- An entry whose `new_password` subfield is missing. -/
def entryMissingField : Entry :=
  { admin_user := some "root", admin_password := some "rootpw",
    new_user := some "newu" }

/-- A generic machine whose role collection holds a ReadOnly role. -/
def genericOkEnv : MachineEnv :=
  { manufacturer := "Supermicro",
    rolesMembers := some ["/redfish/v1/AccountService/Roles/Administrator",
                          "/redfish/v1/AccountService/Roles/ReadOnly"] }

/-- A Dell machine whose slot table has no free slot: slot 1 is reserved
and every other slot carries a user name. -/
def dellAllFullEnv : MachineEnv :=
  { manufacturer := "Dell Inc.",
    dellMembers := some
      [ { odataId := "/redfish/v1/Managers/iDRAC.Embedded.1/Accounts/1",
          userName := "", slotId := "1" },
        { odataId := "/redfish/v1/Managers/iDRAC.Embedded.1/Accounts/2",
          userName := "root", slotId := "2" } ] }

/-- C1: on a valid two-machine descriptor whose first machine is a Dell
with every slot taken, the slot loop leaves `available_id` unassigned, the
resulting `UnboundLocalError` escapes the per-machine handling of main and the
whole run dies: no outcome line is printed for either machine and the
second machine is never contacted, contradicting one-result-per-machine
failure isolation. -/
theorem batch_isolation_broken_by_dell_slot_crash :
    (runBatch false [("m1", entryFull, dellAllFullEnv),
                     ("m2", entryFull, genericOkEnv)]).1 =
        Except.error (PyErr.unboundLocal "available_id") ∧
    sessionsOpened (runBatch false [("m1", entryFull, dellAllFullEnv),
                                    ("m2", entryFull, genericOkEnv)]).2 = ["m1"] ∧
    printedLines (runBatch false [("m1", entryFull, dellAllFullEnv),
                                  ("m2", entryFull, genericOkEnv)]).2 = [] := by
  decide

/-- C2 counterexample: with a valid first entry and a second entry missing
`new_password`, the run does open a session (and performs network calls)
for the first machine before the validation error aborts it, so validation
is not a pre-flight whole-descriptor pass. -/
theorem validation_not_preflight_counterexample :
    (runBatch false [("g1", entryFull, genericOkEnv),
                     ("g2", entryMissingField, genericOkEnv)]).1 =
        Except.error (PyErr.valueError "g2") ∧
    Event.sessionOpen "g1" ∈
      (runBatch false [("g1", entryFull, genericOkEnv),
                       ("g2", entryMissingField, genericOkEnv)]).2 := by
  decide

/-- C2 amended: a descriptor entry missing a required subfield raises the
fatal whole-run `ValueError` at the moment the iteration reaches it; in
particular when the invalid entry is first, the run fails before any
session is opened or any network activity occurs (the event log is empty),
but machines placed before an invalid entry are still processed. -/
theorem invalid_first_entry_fails_before_any_session (machine : String)
    (entry : Entry) (env : MachineEnv) (rest : List (String × Entry × MachineEnv))
    (modifyFlag : Bool) (h : entryInvalid entry = true) :
    runBatch modifyFlag ((machine, entry, env) :: rest) =
      (Except.error (PyErr.valueError machine), []) := by
  simp [runBatch, mainLoop, processMachine, h, bindM, throwM]

/-- Witness for the amended C2 theorem at a concrete invalid first entry. -/
theorem invalid_first_entry_witness :
    runBatch false [("g2", entryMissingField, genericOkEnv)] =
      (Except.error (PyErr.valueError "g2"), []) :=
  invalid_first_entry_fails_before_any_session "g2" entryMissingField
    genericOkEnv [] false (by decide)

/-- An HP machine whose manager payload lacks `FirmwareVersion`. -/
def hpNoFirmwareEnv : MachineEnv :=
  { manufacturer := "HPE",
    linksCap := some "/redfish/v1/Managers/1" }

/-- C3: on an HP machine whose firmware lookup raises `KeyError`, the
handler in `main` prints and `continue`s past `redfish_obj.logout()`, so a
successfully opened session is never closed: the claim that the close runs
on every exit path fails on this path. -/
theorem logout_skipped_on_caught_keyerror :
    (runBatch false [("h1", entryFull, hpNoFirmwareEnv)]).1 = Except.ok () ∧
    sessionsOpened (runBatch false [("h1", entryFull, hpNoFirmwareEnv)]).2 = ["h1"] ∧
    logoutsOf (runBatch false [("h1", entryFull, hpNoFirmwareEnv)]).2 = [] ∧
    printedLines (runBatch false [("h1", entryFull, hpNoFirmwareEnv)]).2 =
      [Line.keyErrorLine "h1" "FirmwareVersion"] := by
  decide

/-- A generic machine whose role collection has members, none of them
containing `readonly` in any case. -/
def rolesNoMatchEnv : MachineEnv :=
  { manufacturer := "Supermicro",
    rolesMembers := some ["/redfish/v1/AccountService/Roles/Administrator",
                          "/redfish/v1/AccountService/Roles/Operator"] }

/-- C4: on a generic create whose role collection has no member containing
`readonly`, the role loop leaves `role_id` unassigned and line 140 raises
`UnboundLocalError`, which nothing catches: the run dies instead of
reporting a role-not-found outcome. No write is issued, but no outcome is
produced and later machines are never reached. -/
theorem role_not_found_crashes_run :
    (runBatch false [("g1", entryFull, rolesNoMatchEnv)]).1 =
        Except.error (PyErr.unboundLocal "role_id") ∧
    writeEvents (runBatch false [("g1", entryFull, rolesNoMatchEnv)]).2 = [] ∧
    printedLines (runBatch false [("g1", entryFull, rolesNoMatchEnv)]).2 = [] := by
  decide

/-- A Dell slot table with no free slot: the reserved slot 1 plus two
occupied slots. -/
def dellNoFreeSlotTable : List Slot :=
  [ { odataId := "/redfish/v1/Managers/iDRAC.Embedded.1/Accounts/1",
      userName := "", slotId := "1" },
    { odataId := "/redfish/v1/Managers/iDRAC.Embedded.1/Accounts/2",
      userName := "root", slotId := "2" },
    { odataId := "/redfish/v1/Managers/iDRAC.Embedded.1/Accounts/3",
      userName := "monitor", slotId := "3" } ]

/-- The Dell create environment over that full slot table. -/
def dellNoFreeSlotEnv : MachineEnv :=
  { manufacturer := "Dell Inc.", dellMembers := some dellNoFreeSlotTable }

/-- The account body `create_accounts` hands to `create_dell_account`. -/
def dellBody : Body :=
  { userName := some "newu", password := some "newp", enabled := some true }

/-- C5: on a Dell create with no free slot (every slot has a user name or
is the reserved slot 1), `create_dell_account` issues no write, but rather
than a no-free-slot outcome it raises `UnboundLocalError` on the
never-assigned `available_id` at line 301. -/
theorem dell_no_free_slot_crashes :
    (create_dell_account dellNoFreeSlotEnv dellBody []).1 =
        Except.error (PyErr.unboundLocal "available_id") ∧
    writeEvents ((create_dell_account dellNoFreeSlotEnv dellBody []).2) = [] := by
  decide

/-- An HP machine whose system payload has neither a `Links` nor a `links`
key. -/
def hpNoLinksEnv : MachineEnv := { manufacturer := "HP" }

/-- C8: on an HP create whose system payload provides no manager link,
`ilo_version` is initialised to 5 but line 219 reads the never-assigned
`manager_url`, raising `UnboundLocalError`: the create does not proceed
with the default version, it kills the run and issues no write. -/
theorem hp_missing_manager_link_crashes :
    (runBatch false [("h2", entryFull, hpNoLinksEnv)]).1 =
        Except.error (PyErr.unboundLocal "manager_url") ∧
    writeEvents (runBatch false [("h2", entryFull, hpNoLinksEnv)]).2 = [] ∧
    printedLines (runBatch false [("h2", entryFull, hpNoLinksEnv)]).2 = [] := by
  decide

/-- An HP machine whose manager reports firmware `iLO 7.00`, so character 4
of the version string is the digit 7. -/
def hpIlo7Env : MachineEnv :=
  { manufacturer := "HP",
    linksCap := some "/redfish/v1/Managers/1",
    managerFirmware := some "iLO 7.00" }

/-- C7 counterexample: the code branches on the version being exactly 5 or
6, not at least 5. With firmware `iLO 7.00` the computed version is 7, at
least 5, yet the posted body carries the vendor-extension block and no
`RoleId`, refuting the claim as stated. -/
theorem hp_version_seven_counterexample :
    (5 : Nat) ≤ 7 ∧
    hp_body "newu" "newp" 7 =
      { userName := some "newu", password := some "newp",
        oem := some { loginPriv := true, loginName := "newu" } } ∧
    writeEvents ((create_hp_account entryFull hpIlo7Env []).2) =
      [("/redfish/v1/AccountService/Accounts",
        { userName := some "newu", password := some "newp",
          oem := some { loginPriv := true, loginName := "newu" } })] := by
  decide

/-- C7 amended: when the computed iLO version is 5 or 6 the create body
carries `RoleId = "ReadOnly"` and no vendor-extension block; for any other
version the body carries the vendor-extension block granting login
privilege with the account name duplicated into its login-name field, and
no `RoleId`. -/
theorem hp_body_by_version (u p : String) (v : Nat) :
    ((v = 5 ∨ v = 6) →
      hp_body u p v =
        { userName := some u, password := some p, roleId := some "ReadOnly" }) ∧
    (¬(v = 5 ∨ v = 6) →
      hp_body u p v =
        { userName := some u, password := some p,
          oem := some { loginPriv := true, loginName := u } }) := by
  constructor <;> intro h <;> simp [hp_body, h]

/-- Witness for the amended C7 theorem at versions 5 and 7. -/
theorem hp_body_by_version_witness :
    hp_body "newu" "newp" 5 =
      { userName := some "newu", password := some "newp", roleId := some "ReadOnly" } ∧
    hp_body "newu" "newp" 7 =
      { userName := some "newu", password := some "newp",
        oem := some { loginPriv := true, loginName := "newu" } } :=
  ⟨(hp_body_by_version "newu" "newp" 5).1 (Or.inl rfl),
   (hp_body_by_version "newu" "newp" 7).2 (by decide)⟩

/-- C10: for a write response whose extracted error-message list is
non-empty, the machine is reported successful exactly when the list
contains the sentinel `The request completed successfully.`, even
alongside other messages; the failure line is printed exactly when the
list lacks it. -/
theorem response_sentinel_decides_outcome (msgs : List String) (machine u : String)
    (entry : Entry) (hu : entry.new_user = some u) (hne : msgs ≠ []) :
    (print_response_messages (some { errorMessages := msgs }) entry machine [] =
        (Except.ok (), [Event.printLine (Line.successLine machine u)]) ↔
      successSentinel ∈ msgs) ∧
    (print_response_messages (some { errorMessages := msgs }) entry machine [] =
        (Except.ok (), [Event.printLine (Line.responseFailed machine u)]) ↔
      successSentinel ∉ msgs) := by
  have hfail : response_failed msgs = true ↔ successSentinel ∉ msgs := by
    simp [response_failed, hne]
  by_cases hc : successSentinel ∈ msgs
  · have hf : response_failed msgs = false := by
      rcases hr : response_failed msgs with _ | _
      · rfl
      · exact absurd (hfail.1 hr) (by simpa using hc)
    simp [print_response_messages, getKey, hu, bindM, pureM, emit, hf, hc]
  · have hf : response_failed msgs = true := hfail.2 hc
    simp [print_response_messages, getKey, hu, bindM, pureM, emit, hf, hc]

/-- Witness for the C10 theorem: a two-message list holding the sentinel
next to another message is reported successful, not failed. -/
theorem response_sentinel_witness :
    (print_response_messages
        (some { errorMessages := ["Some warning.", successSentinel] })
        entryFull "m1" [] =
      (Except.ok (), [Event.printLine (Line.successLine "m1" "newu")]) ↔
        successSentinel ∈ ["Some warning.", successSentinel]) ∧
    (print_response_messages
        (some { errorMessages := ["Some warning.", successSentinel] })
        entryFull "m1" [] =
      (Except.ok (), [Event.printLine (Line.responseFailed "m1" "newu")]) ↔
        successSentinel ∉ ["Some warning.", successSentinel]) :=
  response_sentinel_decides_outcome ["Some warning.", successSentinel] "m1" "newu"
    entryFull (by decide) (by decide)

/-- A bind whose first step is an emit just extends the log. -/
theorem bindM_emit {β : Type} (ev : Event) (f : Unit → M β) (log : List Event) :
    bindM (emit ev) f log = f () (log ++ [ev]) := rfl

/-- A bind whose first step is pure passes the value through. -/
theorem bindM_pure {α β : Type} (a : α) (f : α → M β) (log : List Event) :
    bindM (pureM a) f log = f a log := rfl

/-- Binds reassociate. -/
theorem bindM_assoc {α β γ : Type} (m : M α) (f : α → M β) (g : β → M γ)
    (log : List Event) :
    bindM (bindM m f) g log = bindM m (fun a => bindM (f a) g) log := by
  unfold bindM
  rcases m log with ⟨r, l⟩
  cases r <;> rfl

/-- On a slot table containing a free slot, the slot loop of
`create_dell_account` succeeds with the id of the first free slot in scan
order and issues no write itself. -/
theorem dellSlotScan_first_free (slots : List Slot) (log : List Event)
    (hfree : ∃ s ∈ slots, isFreeSlot s = true) :
    ∃ i, ∃ hi : i < slots.length,
      isFreeSlot (slots.get ⟨i, hi⟩) = true ∧
      (∀ j, ∀ hj : j < slots.length, j < i → isFreeSlot (slots.get ⟨j, hj⟩) = false) ∧
      (dellSlotScan slots log).1 = Except.ok (slots.get ⟨i, hi⟩).slotId ∧
      writeEvents ((dellSlotScan slots log).2) = writeEvents log := by
  induction slots generalizing log with
  | nil => simp at hfree
  | cons s rest ih =>
      by_cases hf : isFreeSlot s = true
      · refine ⟨0, Nat.succ_pos _, hf, ?_, ?_, ?_⟩
        · intro j hj hji
          omega
        · simp [dellSlotScan, bindM_emit, hf, pureM]
        · simp [dellSlotScan, bindM_emit, hf, pureM, writeEvents_append, writeEvents]
      · have hfs : isFreeSlot s = false := by
          simpa using hf
        have hfree2 : ∃ x ∈ rest, isFreeSlot x = true := by
          rcases hfree with ⟨x, hx, hxf⟩
          rcases List.mem_cons.1 hx with h1 | h2
          · subst h1
            exact absurd hxf hf
          · exact ⟨x, h2, hxf⟩
        rcases ih (log ++ [Event.netGet s.odataId]) hfree2 with ⟨i, hi, h1, h2, h3, h4⟩
        refine ⟨i + 1, Nat.succ_lt_succ hi, h1, ?_, ?_, ?_⟩
        · intro j hj hji
          match j with
          | 0 => exact hfs
          | j2 + 1 => exact h2 j2 (Nat.lt_of_succ_lt_succ hj) (Nat.lt_of_succ_lt_succ hji)
        · have hstep : dellSlotScan (s :: rest) log =
              dellSlotScan rest (log ++ [Event.netGet s.odataId]) := by
            simp [dellSlotScan, bindM_emit, hfs]
          rw [hstep]
          exact h3
        · have hstep : dellSlotScan (s :: rest) log =
              dellSlotScan rest (log ++ [Event.netGet s.odataId]) := by
            simp [dellSlotScan, bindM_emit, hfs]
          rw [hstep, h4]
          simp [writeEvents_append, writeEvents]

/-- C6: whenever the fetched Dell slot table has a free slot (empty
`UserName` and id other than the reserved `"1"`), the single write of
`create_dell_account` targets the first such slot in scan order, and its
id is never the reserved `"1"`. -/
theorem dell_create_writes_first_free_slot (env : MachineEnv) (body : Body)
    (slots : List Slot) (hm : env.dellMembers = some slots)
    (hfree : ∃ s ∈ slots, isFreeSlot s = true) :
    ∃ i, ∃ hi : i < slots.length,
      isFreeSlot (slots.get ⟨i, hi⟩) = true ∧
      (∀ j, ∀ hj : j < slots.length, j < i → isFreeSlot (slots.get ⟨j, hj⟩) = false) ∧
      (slots.get ⟨i, hi⟩).slotId ≠ "1" ∧
      writeEvents ((create_dell_account env body []).2) =
        [("/redfish/v1/Managers/iDRAC.Embedded.1/Accounts/" ++ (slots.get ⟨i, hi⟩).slotId,
          { body with roleId := some "ReadOnly" })] := by
  rcases dellSlotScan_first_free slots
      [Event.netGet "/redfish/v1/Managers/iDRAC.Embedded.1/Accounts/"] hfree with
    ⟨i, hi, h1, h2, h3, h4⟩
  have hne1 : (slots.get ⟨i, hi⟩).slotId ≠ "1" := by
    have h5 := h1
    simp [isFreeSlot] at h5
    exact h5.2
  refine ⟨i, hi, h1, h2, hne1, ?_⟩
  have hstep : create_dell_account env body [] =
      bindM (dellSlotScan slots)
        (fun availableId =>
          bindM (emit (Event.netPatch
              ("/redfish/v1/Managers/iDRAC.Embedded.1/Accounts/" ++ availableId)
              { body with roleId := some "ReadOnly" }))
            (fun _ => pureM env.writeResp))
        [Event.netGet "/redfish/v1/Managers/iDRAC.Embedded.1/Accounts/"] := by
    simp [create_dell_account, bindM_emit, hm]
  rw [hstep, bindM_eval, h3]
  simp only [bindM_emit, pureM]
  rw [writeEvents_append, h4]
  simp [writeEvents]

/-- A Dell slot table whose reserved slot 1 is empty and whose first
genuinely free slot is slot 3. -/
def dellFreeSlotTable : List Slot :=
  [ { odataId := "/redfish/v1/Managers/iDRAC.Embedded.1/Accounts/1",
      userName := "", slotId := "1" },
    { odataId := "/redfish/v1/Managers/iDRAC.Embedded.1/Accounts/2",
      userName := "root", slotId := "2" },
    { odataId := "/redfish/v1/Managers/iDRAC.Embedded.1/Accounts/3",
      userName := "", slotId := "3" } ]

/-- The Dell create environment over that table. -/
def dellFreeSlotEnv : MachineEnv :=
  { manufacturer := "Dell Inc.", dellMembers := some dellFreeSlotTable }

/-- Witness for the C6 theorem: with slot 1 empty but reserved, slot 2
occupied and slot 3 free, the write goes to slot 3. -/
theorem dell_first_free_slot_witness :
    ∃ i, ∃ hi : i < dellFreeSlotTable.length,
      isFreeSlot (dellFreeSlotTable.get ⟨i, hi⟩) = true ∧
      (∀ j, ∀ hj : j < dellFreeSlotTable.length, j < i →
        isFreeSlot (dellFreeSlotTable.get ⟨j, hj⟩) = false) ∧
      (dellFreeSlotTable.get ⟨i, hi⟩).slotId ≠ "1" ∧
      writeEvents ((create_dell_account dellFreeSlotEnv dellBody []).2) =
        [("/redfish/v1/Managers/iDRAC.Embedded.1/Accounts/" ++
            (dellFreeSlotTable.get ⟨i, hi⟩).slotId,
          { dellBody with roleId := some "ReadOnly" })] :=
  dell_create_writes_first_free_slot dellFreeSlotEnv dellBody dellFreeSlotTable
    rfl (by decide)

/-- The account scan of `get_user_id` returns the first member whose
`UserName` matches, issues only reads, and prints the user-not-found line
when no member matches. -/
theorem userScan_eval (username : String) (users : List Account) (log : List Event) :
    (userScan username users log).1 =
      Except.ok ((users.find? (fun u => u.userName == username)).map Account.accountId) ∧
    writeEvents ((userScan username users log).2) = writeEvents log ∧
    ((∀ u ∈ users, u.userName ≠ username) →
      Event.printLine Line.userNotFound ∈ (userScan username users log).2) := by
  induction users generalizing log with
  | nil =>
      refine ⟨rfl, ?_, ?_⟩
      · simp [userScan, bindM_emit, pureM, writeEvents_append, writeEvents]
      · intro h
        simp [userScan, bindM_emit, pureM]
  | cons u rest ih =>
      by_cases hu : u.userName = username
      · have hstep : ∀ l, userScan username (u :: rest) l =
            (Except.ok (some u.accountId), l ++ [Event.netGet u.odataId]) := by
          intro l
          simp [userScan, bindM_emit, hu, pureM]
        have hfind : (u :: rest).find? (fun a => a.userName == username) = some u :=
          List.find?_cons_of_pos _ (by simpa using hu)
        refine ⟨?_, ?_, ?_⟩
        · rw [hstep, hfind]
          rfl
        · rw [hstep]
          simp [writeEvents_append, writeEvents]
        · intro h
          exact absurd hu (h u (List.mem_cons_self u rest))
      · have hstep : ∀ l, userScan username (u :: rest) l =
            userScan username rest (l ++ [Event.netGet u.odataId]) := by
          intro l
          simp [userScan, bindM_emit, hu]
        have hfind : (u :: rest).find? (fun a => a.userName == username) =
            rest.find? (fun a => a.userName == username) :=
          List.find?_cons_of_neg _ (by simpa using hu)
        rcases ih (log ++ [Event.netGet u.odataId]) with ⟨h1, h2, h3⟩
        refine ⟨?_, ?_, ?_⟩
        · rw [hstep, hfind]
          exact h1
        · rw [hstep, h2]
          simp [writeEvents_append, writeEvents]
        · intro h
          rw [hstep]
          exact h3 (fun x hx => h x (List.mem_cons_of_mem u hx))

/-- C9: on a generic modify whose fetched accounts collection has no
member named like the target, no write is issued, the failure is printed
and no response is returned; when a member matches, exactly one update is
issued and its body carries only the new password. -/
theorem generic_modify_contract (entry : Entry) (env : MachineEnv)
    (users : List Account) (newu newp : String)
    (hu : entry.new_user = some newu) (hpw : entry.new_password = some newp)
    (hacc : env.accountsMembers = some users) :
    ((∀ u ∈ users, u.userName ≠ newu) →
        (modify_generic_account entry env []).1 = Except.ok none ∧
        writeEvents ((modify_generic_account entry env []).2) = [] ∧
        Event.printLine Line.userNotFound ∈ (modify_generic_account entry env []).2) ∧
    ((∃ u ∈ users, u.userName = newu) →
        ∃ uid,
          (modify_generic_account entry env []).1 = Except.ok (some env.writeResp) ∧
          writeEvents ((modify_generic_account entry env []).2) =
            [("/redfish/v1/AccountService/Accounts/" ++ uid,
              { password := some newp })]) := by
  have hstep : modify_generic_account entry env [] =
      bindM (userScan newu users)
        (fun userId =>
          match userId with
          | some uid =>
              bindM (emit (Event.netPatch ("/redfish/v1/AccountService/Accounts/" ++ uid)
                  { password := some newp }))
                (fun _ => pureM (some env.writeResp))
          | none => pureM none)
        [Event.netGet "/redfish/v1/AccountService/Accounts"] := by
    simp [modify_generic_account, get_user_id, getKey, hu, hpw, hacc,
      bindM_pure, bindM_assoc, bindM_emit]
  rcases userScan_eval newu users [Event.netGet "/redfish/v1/AccountService/Accounts"] with
    ⟨h1, h2, h3⟩
  constructor
  · intro hnone
    have hfind : users.find? (fun u => u.userName == newu) = none := by
      rw [List.find?_eq_none]
      intro x hx
      simpa using hnone x hx
    rw [hfind] at h1
    refine ⟨?_, ?_, ?_⟩
    · rw [hstep, bindM_eval, h1]
      rfl
    · rw [hstep, bindM_eval, h1]
      simpa [pureM, writeEvents] using h2
    · rw [hstep, bindM_eval, h1]
      simpa [pureM] using h3 hnone
  · intro hsome
    have hissome : (users.find? (fun u => u.userName == newu)).isSome := by
      rw [List.find?_isSome]
      rcases hsome with ⟨u, hu2, he⟩
      exact ⟨u, hu2, by simpa using he⟩
    rcases Option.isSome_iff_exists.1 hissome with ⟨u, hfind⟩
    rw [hfind] at h1
    refine ⟨u.accountId, ?_, ?_⟩
    · rw [hstep, bindM_eval, h1]
      rfl
    · rw [hstep, bindM_eval, h1]
      simp only [Option.map, bindM_emit, pureM]
      rw [writeEvents_append, h2]
      simp [writeEvents]

/-- A generic accounts collection whose second member is the target. -/
def modifyUsers : List Account :=
  [ { odataId := "/redfish/v1/AccountService/Accounts/2",
      userName := "admin", accountId := "2" },
    { odataId := "/redfish/v1/AccountService/Accounts/3",
      userName := "newu", accountId := "3" } ]

/-- The generic modify environment over those accounts. -/
def modifyFoundEnv : MachineEnv :=
  { manufacturer := "Supermicro", accountsMembers := some modifyUsers }

/-- Witness for the C9 theorem: the target exists, so exactly one
password-only update is issued. -/
theorem generic_modify_witness :
    ∃ uid,
      (modify_generic_account entryFull modifyFoundEnv []).1 =
        Except.ok (some modifyFoundEnv.writeResp) ∧
      writeEvents ((modify_generic_account entryFull modifyFoundEnv []).2) =
        [("/redfish/v1/AccountService/Accounts/" ++ uid,
          { password := some "newp" })] :=
  (generic_modify_contract entryFull modifyFoundEnv modifyUsers "newu" "newp"
    rfl rfl rfl).2 (by decide)
